import Mathlib

/-!
# A shallow embedding of the duppy dynamic-DNS update service

This file models the update pipeline of the duppy server
(`duppy/records.py`, `duppy/backends.py`, `duppy/dns_frontend.py`,
`duppy/http_frontend.py`) and proves properties of it.

Python strings and DNS name texts are modelled as `List Char` so that
all operations reduce in the kernel.  Python exceptions are modelled as
an explicit error type threaded through `Except`.  Backend calls are
recorded in a trace; the truth value each backend call returns is
supplied by an `Oracle` so that theorems can quantify over backend
behaviour.
-/

namespace Duppy

/-- Python strings / DNS name texts, as character lists. -/
abbrev Str := List Char

/-- Character data of a Lean string literal. -/
def Str.of (s : String) : Str := s.data

/-- Render a modelled string back into a Lean `String` (used when the
source interpolates a name into an exception message). -/
def Str.mk (s : Str) : String := String.mk s

/-- `Backend.is_in_zone` (backends.py): `zone == dns_name or
dns_name.endswith('.' + zone)`. -/
def is_in_zone (zone dns_name : Str) : Bool :=
  zone == dns_name || ('.' :: zone).isSuffixOf dns_name

/-- `name.to_text(omit_final_dot=True)`: drop a trailing dot. -/
def omit_final_dot (s : Str) : Str :=
  if s.getLast? = some '.' then s.dropLast else s

/-- `name.to_text(omit_final_dot=True).lower()` as used when the DNS
front-end normalises the zone and owner names before backend calls. -/
def norm_name (s : Str) : Str :=
  (omit_final_dot s).map Char.toLower

/-- `dns.name.from_text`: text names are made absolute (a final dot is
appended when missing). -/
def dns_name_from_text (s : Str) : Str :=
  if s.getLast? = some '.' then s else s ++ ['.']

/-- Python `str.split(sep)` for a one-character separator: splitting the
empty string yields `[""]`, and separators at the ends yield empty
fields, exactly like Python. -/
def py_split (sep : Char) (s : Str) : List Str :=
  match s with
  | [] => [[]]
  | c :: rest =>
    let r := py_split sep rest
    if c = sep then [] :: r
    else
      match r with
      | [] => [[c]]
      | g :: gs => (c :: g) :: gs

/-- The record types the server knows about (`dns.rdatatype`). -/
inductive RType
  | A | AAAA | CNAME | MX | SRV | TXT | SOA | ANY
  deriving DecidableEq, Repr

/-- The record classes relevant to RFC 2136 section 2.5
(`dns.rdataclass`). -/
inductive DClass
  | IN | NONE | ANY
  deriving DecidableEq, Repr

/-- `dns.rdatatype.RdataType.make` on a text label; unknown labels raise
`UnknownRdatatype`. -/
def rtype_make (s : String) : Option RType :=
  if s = "A" then some .A
  else if s = "AAAA" then some .AAAA
  else if s = "CNAME" then some .CNAME
  else if s = "MX" then some .MX
  else if s = "SRV" then some .SRV
  else if s = "TXT" then some .TXT
  else if s = "SOA" then some .SOA
  else if s = "ANY" then some .ANY
  else none

/-- Typed rdata payloads of the supported record types
(duppy/records.py classes `A`, `AAAA`, `CNAME`, `MX`, `SRV`, `TXT`). -/
inductive RData
  | a (address : Str)
  | aaaa (address : Str)
  | cname (target : Str)
  | mx (preference : Nat) (exchange : Str)
  | srv (priority weight port : Nat) (target : Str)
  | txt (strings : List Str)
  deriving DecidableEq, Repr

/-- A parsed `dns.rrset.RRset` as it appears in the update section of an
UPDATE message or as produced by `rrset_from_json`: owner name (absolute
text form), record type, TTL, the RFC 2136 `deleting` marker, and the
rdata items. -/
structure WireRR where
  name : Str
  rdtype : RType
  ttl : Nat
  deleting : Option DClass
  items : List RData
  deriving DecidableEq, Repr

/-- The `data` local of `handle_nsupdate`: initialised to `''`, it ends
up holding an address / target string, or the tuple of strings of a TXT
record. -/
inductive UData
  | s (v : Str)
  | ls (v : List Str)
  deriving DecidableEq, Repr

/-- `r[0].get_data()` of the duppy rdata classes (records.py): the
address for A/AAAA, the target/exchange text for CNAME/MX/SRV, the
string tuple for TXT. -/
def get_data : RData → UData
  | .a address => .s address
  | .aaaa address => .s address
  | .cname target => .s target
  | .mx _ exchange => .s exchange
  | .srv _ _ _ target => .s target
  | .txt strings => .ls strings

/-- Python exceptions that the modelled code raises or catches. -/
inductive PyExc
  | keyError (key : String)
  | valueError (msg : String)
  | typeError (msg : String)
  | attributeError (attr : String)
  | formError (msg : String)
  | unknownRdatatype (label : String)
  | exc (msg : String)
  | permissionError (msg : String)
  deriving DecidableEq, Repr

/-- `str(e)` as used when an exception message is put into a response
body; `str` of a `KeyError` is the quoted key. -/
def exc_text : PyExc → String
  | .keyError key => "'" ++ key ++ "'"
  | .valueError msg => msg
  | .typeError msg => msg
  | .attributeError attr => attr
  | .formError msg => msg
  | .unknownRdatatype label => label
  | .exc msg => msg
  | .permissionError msg => msg

/-- Equality on `Except` results is decidable when both components have
decidable equality (needed to evaluate the modelled code by `decide`). -/
instance {ε α : Type} [DecidableEq ε] [DecidableEq α] : DecidableEq (Except ε α)
  | .ok a, .ok b =>
    match decEq a b with
    | isTrue h => isTrue (h ▸ rfl)
    | isFalse h => isFalse (fun hh => h (Except.ok.inj hh))
  | .ok _, .error _ => isFalse (fun h => Except.noConfusion h)
  | .error _, .ok _ => isFalse (fun h => Except.noConfusion h)
  | .error a, .error b =>
    match decEq a b with
    | isTrue h => isTrue (h ▸ rfl)
    | isFalse h => isFalse (fun hh => h (Except.error.inj hh))

/-! ## Record model: duppy/records.py -/

namespace Records

/-- The duppy rdata codec classes defined in records.py. -/
inductive CodecClass
  | SOA | A | AAAA | CNAME | MX | SRV | TXT
  deriving DecidableEq, Repr

/-- The registration table assigned to `dns.rdata._rdata_classes`
(records.py lines 125-132), transcribed entry for entry.  Note that the
source maps `(IN, SRV)` to the `SOA` class and has no entry for
`(IN, TXT)`. -/
def rdata_classes (c : DClass) (t : RType) : Option CodecClass :=
  match c, t with
  | .IN, .SOA => some .SOA
  | .IN, .A => some .A
  | .IN, .AAAA => some .AAAA
  | .IN, .CNAME => some .CNAME
  | .IN, .MX => some .MX
  | .IN, .SRV => some .SOA
  | _, _ => none

/-- The JSON object of one update, §4.1 of the spec and the dict shape
handled by `rrset_from_json`: keys `op`, `dns_name`, `type`, `ttl`,
`data`, `priority`, `weight`, `port`.  Optional fields model absent
keys. -/
structure JsonUpd where
  op : String
  dns_name : Str
  rtype : Option String := none
  ttl : Option Nat := none
  data : Option Str := none
  priority : Option Nat := none
  weight : Option Nat := none
  port : Option Nat := none
  deriving DecidableEq, Repr

/-- `cls.from_json(rdclass, rdtype, obj)` for each registered codec
class.  Key reads follow the keyword-argument order of the source; a
missing key raises `KeyError`.  The `SOA` codec reads `obj["mname"]`
first, a key the update JSON shape never carries, so applying it to an
update object always raises `KeyError('mname')`.  (The address / target
syntax checks done inside the dnspython constructors are not modelled;
no claim depends on them.) -/
def codec_from_json (cls : CodecClass) (obj : JsonUpd) : Except PyExc RData :=
  match cls with
  | .SOA => .error (.keyError ("mname"))
  | .A =>
    match obj.data with
    | some d => .ok (.a d)
    | none => .error (.keyError ("data"))
  | .AAAA =>
    match obj.data with
    | some d => .ok (.aaaa d)
    | none => .error (.keyError ("data"))
  | .CNAME =>
    match obj.data with
    | some d => .ok (.cname d)
    | none => .error (.keyError ("data"))
  | .MX =>
    match obj.priority with
    | none => .error (.keyError ("priority"))
    | some p =>
      match obj.data with
      | some d => .ok (.mx p d)
      | none => .error (.keyError ("data"))
  | .SRV =>
    match obj.priority with
    | none => .error (.keyError ("priority"))
    | some p =>
      match obj.weight with
      | none => .error (.keyError ("weight"))
      | some w =>
        match obj.port with
        | none => .error (.keyError ("port"))
        | some po =>
          match obj.data with
          | some d => .ok (.srv p w po d)
          | none => .error (.keyError ("data"))
  | .TXT =>
    match obj.data with
    | some d => .ok (.txt [d])
    | none => .error (.keyError ("data"))

/-- `rdata_from_json` (records.py lines 135-144): look the class up in
the registration table and call its `from_json`.  When the table has no
entry, dnspython falls back to its own stock class for the type, and no
stock class defines `from_json`, so the call raises `AttributeError`. -/
def rdata_from_json (rdclass : DClass) (rdtype : RType) (obj : JsonUpd) :
    Except PyExc RData :=
  match rdata_classes rdclass rdtype with
  | some cls => codec_from_json cls obj
  | none => .error (.attributeError ("from_json"))

/-- `rrset_from_json` (records.py lines 147-171).  For `delete` ops the
RFC 2136 encoding is chosen (`deleting = ANY` for whole-RRset deletions,
`NONE` for record-level deletions); an `ANY`-deleting RRset carries no
rdata and keeps the constructor default TTL 0. -/
def rrset_from_json (obj : JsonUpd) : Except PyExc WireRR :=
  let name := dns_name_from_text obj.dns_name
  let ttl := obj.ttl.getD 0
  match rtype_make (obj.rtype.getD ("ANY")) with
  | none => .error (.unknownRdatatype (obj.rtype.getD ("ANY")))
  | some rdtype =>
    let deleting : Option DClass :=
      if obj.op = "delete" then
        some (if rdtype = .ANY ∨ obj.data.getD [] = ([] : Str) then .ANY else .NONE)
      else none
    let empty := deleting = some DClass.ANY
    if empty then
      .ok { name, rdtype, ttl := 0, deleting, items := [] }
    else
      match rdata_from_json .IN rdtype obj with
      | .error e => .error e
      | .ok rd => .ok { name, rdtype, ttl, deleting, items := [rd] }

/-- `records.validate` (records.py lines 174-187): zone membership, the
TTL floor for add ops, zero TTL for deletions, and the apex-delete
refusal, checked per record in order.  The first two failures raise a
plain `Exception`; the TTL-on-deletion failure raises
`dns.exception.FormError`. -/
def validate (zone : Str) (minimum_ttl : Nat) : List WireRR → Except PyExc Unit
  | [] => .ok ()
  | r :: rest =>
    if ¬ is_in_zone zone r.name then
      .error (.exc ("Not in zone " ++ Str.mk zone ++ ": " ++ Str.mk r.name))
    else if r.deleting = none ∧ r.ttl < minimum_ttl then
      .error (.exc ("TTL too low: " ++ Nat.repr r.ttl ++ " < " ++ Nat.repr minimum_ttl))
    else if r.deleting ≠ none ∧ r.ttl ≠ 0 then
      .error (.formError ("Invalid TTL " ++ Nat.repr r.ttl ++ " for deletion rate"))
    else if r.name = zone ∧ r.rdtype = .ANY then
      .error (.exc ("Refused to delete entire zone: " ++ Str.mk zone))
    else
      validate zone minimum_ttl rest

end Records

/-! ## Backend calls and oracle: duppy/backends.py -/

/-- One backend invocation, with the arguments the front-end passes.
This is the observable effect trace of a request. -/
inductive BCall
  | transaction_start (zone : Str)
  | add_to_rrset (zone name : Str) (rdtype : RType) (ttl p1 p2 p3 : Nat) (data : UData)
  | delete_all_rrsets (zone name : Str)
  | delete_rrset (zone name : Str) (rdtype : RType)
  | delete_from_rrset (zone name : Str) (rdtype : RType) (data : UData)
  | notify_changed (zone : Str)
  | transaction_commit (zone : Str)
  | transaction_rollback (zone : Str) (silent : Bool)
  deriving DecidableEq, Repr

/-- The truth values a backend returns for each call; quantifying over
this models arbitrary backend behaviour. -/
structure Oracle where
  add_ok : Str → Str → RType → Nat → Nat → Nat → Nat → UData → Bool
  delete_all_ok : Str → Str → Bool
  delete_rrset_ok : Str → Str → RType → Bool
  delete_from_ok : Str → Str → RType → UData → Bool
  notify_ok : Str → Bool
  commit_ok : Str → Bool

/-- A backend that reports success on every call. -/
def all_ok_oracle : Oracle where
  add_ok := fun _ _ _ _ _ _ _ _ => true
  delete_all_ok := fun _ _ => true
  delete_rrset_ok := fun _ _ _ => true
  delete_from_ok := fun _ _ _ _ => true
  notify_ok := fun _ => true
  commit_ok := fun _ => true

/-! ## DNS front-end: duppy/dns_frontend.py -/

namespace DnsFrontend

/-- The exceptions of the update-section validation loop:
`UpdateRejected` is answered with `NOTIMP`, `dns.exception.FormError`
with `FORMERR`. -/
inductive Reject
  | updateRejected (msg : String)
  | formError (msg : String)
  deriving DecidableEq, Repr

/-- DNS response codes used by the front-end. -/
inductive Rcode
  | NOERROR | FORMERR | SERVFAIL | NOTIMP | REFUSED | NXDOMAIN
  deriving DecidableEq, Repr

/-- The rdata unpacking of `handle_nsupdate` (dns_frontend.py lines
117-143): `p1 = p2 = p3 = 0` and `data = ''` by default; a single rdata
item of a supported type fills them (MX preference into `p1`, SRV
priority/weight/port into `p1`/`p2`/`p3`); any other type raises
`UpdateRejected('Unimplemented')`, and more than one item raises
`UpdateRejected`. -/
def extract_data (upd : WireRR) : Except Reject (Nat × Nat × Nat × UData) :=
  match upd.items with
  | [] => .ok (0, 0, 0, .s [])
  | [d] =>
    match upd.rdtype, d with
    | .A, .a address => .ok (0, 0, 0, .s address)
    | .AAAA, .aaaa address => .ok (0, 0, 0, .s address)
    | .MX, .mx preference exchange => .ok (preference, 0, 0, .s exchange)
    | .SRV, .srv priority weight port target => .ok (priority, weight, port, .s target)
    | .TXT, .txt strings => .ok (0, 0, 0, .ls strings)
    | _, _ => .error (.updateRejected ("Unimplemented"))
  | _ :: _ :: _ => .error (.updateRejected ("Unexpected number of data elements"))

/-- The per-record validation of `handle_nsupdate` (dns_frontend.py
lines 103-150): zone membership, TTL floor for adds, zero TTL for
deletions, rdata unpacking, then the apex-delete refusal.  `zone` is the
zone name in absolute text form, as compared by the source. -/
def validate_rr (zone : Str) (minimum_ttl : Nat) (upd : WireRR) :
    Except Reject (Nat × Nat × Nat × UData) :=
  if ¬ is_in_zone zone upd.name then
    .error (.updateRejected ("Not in zone " ++ Str.mk zone ++ ": " ++ Str.mk upd.name))
  else if upd.deleting = none ∧ upd.ttl < minimum_ttl then
    .error (.updateRejected ("TTL too low: " ++ Nat.repr upd.ttl ++ " < " ++
      Nat.repr minimum_ttl))
  else if upd.deleting ≠ none ∧ upd.ttl ≠ 0 then
    .error (.formError ("Invalid TTL " ++ Nat.repr upd.ttl ++ " for deletion update"))
  else
    match extract_data upd with
    | .error e => .error e
    | .ok r =>
      if upd.name = zone ∧ upd.rdtype = .ANY then
        .error (.updateRejected ("Refused to delete entire zone: " ++ Str.mk zone))
      else .ok r

/-- A validated update entry: the record together with its unpacked
`(p1, p2, p3, data)`, as appended to the `updates` list of the source. -/
abbrev Item := WireRR × Nat × Nat × Nat × UData

/-- The whole validation loop, in input order, stopping at the first
failing record. -/
def validate_all (zone : Str) (minimum_ttl : Nat) :
    List WireRR → Except Reject (List Item)
  | [] => .ok []
  | upd :: rest =>
    match validate_rr zone minimum_ttl upd with
    | .error e => .error e
    | .ok (p1, p2, p3, data) =>
      match validate_all zone minimum_ttl rest with
      | .error e => .error e
      | .ok out => .ok ((upd, p1, p2, p3, data) :: out)

/-- The per-record backend dispatch of the execution loop
(dns_frontend.py lines 155-187): `deleting` absent means an add,
`ANY`/`ANY` means delete-all, `ANY` with a concrete type deletes one
RRset, `NONE` deletes matching records; any other combination makes no
call and sets `ok = False`.  Returns the call (if any) and the truth
value the oracle assigns to it. -/
def step_call (O : Oracle) (zone : Str) (it : Item) : Option BCall × Bool :=
  let (upd, p1, p2, p3, data) := it
  let name := norm_name upd.name
  match upd.deleting with
  | none =>
    (some (.add_to_rrset zone name upd.rdtype upd.ttl p1 p2 p3 data),
     O.add_ok zone name upd.rdtype upd.ttl p1 p2 p3 data)
  | some .ANY =>
    if upd.rdtype = .ANY then
      (some (.delete_all_rrsets zone name), O.delete_all_ok zone name)
    else
      (some (.delete_rrset zone name upd.rdtype), O.delete_rrset_ok zone name upd.rdtype)
  | some .NONE =>
    (some (.delete_from_rrset zone name upd.rdtype data),
     O.delete_from_ok zone name upd.rdtype data)
  | some .IN => (none, false)

/-- The execution `for` loop (dns_frontend.py lines 154-187), threading
the `ok` flag (initially `0`), the `changes` counter and the call trace;
the loop breaks at the first call that reports failure. -/
def exec_ops (O : Oracle) (zone : Str) (ok : Bool) (changes : Nat)
    (trace : List BCall) : List Item → Bool × Nat × List BCall
  | [] => (ok, changes, trace)
  | it :: rest =>
    let (call, okc) := step_call O zone it
    let trace := trace ++ call.toList
    if okc then exec_ops O zone true (changes + 1) trace rest
    else (false, changes, trace)

/-- dns_frontend.py lines 152-200 plus the `finally` block: start a
transaction, run the loop, call `notify_changed` when anything changed,
commit when the success flag holds, and otherwise roll back in the
`finally` block with `silent=(not changes)`.  Note the source sets
`dbT = None` after the commit attempt whether or not the commit
succeeded, so the `finally` block rolls back only when the success flag
was already false. -/
def run_update_section (O : Oracle) (zone_text : Str) (items : List Item) :
    Rcode × List BCall :=
  let zone := norm_name zone_text
  let r := exec_ops O zone false 0 [] items
  let ok := r.1
  let changes := r.2.1
  let trace := r.2.2
  let ok2 := if changes ≠ 0 then O.notify_ok zone && ok else ok
  let trace2 := if changes ≠ 0 then trace ++ [BCall.notify_changed zone] else trace
  if ok2 then
    ((if O.commit_ok zone then Rcode.NOERROR else Rcode.SERVFAIL),
     BCall.transaction_start zone :: trace2 ++ [BCall.transaction_commit zone])
  else
    (Rcode.SERVFAIL,
     BCall.transaction_start zone :: trace2 ++
       [BCall.transaction_rollback zone (changes == 0)])

/-- The update-section handling of an authenticated, prerequisite-free
UPDATE message: validation first (a rejection yields `NOTIMP`, a form
error `FORMERR`, and no backend interaction), then execution. -/
def handle_update_section (O : Oracle) (minimum_ttl : Nat) (zone_text : Str)
    (updates : List WireRR) : Rcode × List BCall :=
  match validate_all zone_text minimum_ttl updates with
  | .error (.updateRejected _) => (Rcode.NOTIMP, [])
  | .error (.formError _) => (Rcode.FORMERR, [])
  | .ok items => run_update_section O zone_text items

/-- The zone dictionaries iterated by the SOA query path.  Fields model
the keys of the Python dicts: `SQLBackend.get_all_zones` rows carry
`zone`, `hostname`, `type`, `ttl` and `serial` (backends.py lines
203-215), while the front-end also reads a `name` key. -/
structure ZoneInfo where
  name : Option Str := none
  zone : Option Str := none
  hostname : Option Str := none
  ztype : Option String := none
  ttl : Option Nat := none
  serial : Option Nat := none
  deriving DecidableEq, Repr

/-- A row of `SQLBackend.get_all_zones` (backends.py lines 203-215): the
dict is built with keys `zone`, `hostname`, `type`, `ttl`, `serial`. -/
def sql_zone_row (z hostname : Str) (ztype : String) (ttl serial : Nat) : ZoneInfo :=
  { zone := some z, hostname := some hostname, ztype := some ztype,
    ttl := some ttl, serial := some serial }

/-- Outcome of the SOA query loop body. -/
inductive QueryOutcome
  | soaAnswer (mname : Str) (serial refresh : Nat)
  | nxdomain
  deriving DecidableEq, Repr

/-- The zone scan of the QUERY path (dns_frontend.py lines 59-85) for a
single-question SOA query: zones whose `type` differs from the question
type are skipped; otherwise the front-end reads `zone["name"]` (a
`KeyError` when the dict has no such key), tests `is_in_zone`, and on a
match builds an authoritative SOA answer from `zone["hostname"]`,
`zone.get('serial', 0)` and `zone.get('ttl', frontend.default_ttl)`;
exhausting the loop yields NXDOMAIN. -/
def soa_query_loop (default_ttl : Nat) (isz : Str → Str → Bool) (qname : Str) :
    List ZoneInfo → Except PyExc QueryOutcome
  | [] => .ok .nxdomain
  | z :: rest =>
    let skip : Except PyExc Bool :=
      match z.ztype with
      | none => .ok false
      | some t =>
        if t = "" then .ok false
        else
          match rtype_make t with
          | none => .error (.unknownRdatatype t)
          | some rt => .ok (rt ≠ RType.SOA)
    match skip with
    | .error e => .error e
    | .ok true => soa_query_loop default_ttl isz qname rest
    | .ok false =>
      match z.name with
      | none => .error (.keyError ("name"))
      | some zname =>
        if isz zname (omit_final_dot qname) then
          match z.hostname with
          | none => .error (.keyError ("hostname"))
          | some h =>
            .ok (.soaAnswer h (z.serial.getD 0) (z.ttl.getD default_ttl))
        else soa_query_loop default_ttl isz qname rest

/-- What the server sends back for a single-question SOA query. -/
inductive DnsResponse
  | answer (aa : Bool) (soa_mname : Str) (serial refresh : Nat)
  | rcode (rc : Rcode)
  deriving DecidableEq, Repr

/-- The QUERY path wrapped in the handler's exception handling: a match
yields an authoritative (AA) SOA answer, no match yields `NXDOMAIN`, and
any exception falls into the bare `except` clause, which answers
`SERVFAIL`. -/
def handle_soa_query (default_ttl : Nat) (isz : Str → Str → Bool) (qname : Str)
    (zones : List ZoneInfo) : DnsResponse :=
  match soa_query_loop default_ttl isz qname zones with
  | .ok (.soaAnswer mname serial refresh) => .answer true mname serial refresh
  | .ok .nxdomain => .rcode .NXDOMAIN
  | .error _ => .rcode .SERVFAIL

end DnsFrontend

/-! ## SQL backend: duppy/backends.py `SQLBackend` -/

namespace SQLBackend

/-- The named SQL parameters `SQLBackend.add_to_rrset` binds
(backends.py lines 266-291). -/
structure SqlAddArgs where
  zone : Str
  dns_name : Str
  rtype : RType
  ttl : Nat
  i1 : Option Nat
  i2 : Option Nat
  i3 : Option Nat
  rdata : UData
  deriving DecidableEq, Repr

set_option linter.unusedVariables false in
/-- `SQLBackend.add_to_rrset` (backends.py lines 266-291): the
parameters passed to `sql_add_to_rrset` for RRset `r` with single rdata
item `r0`.  The source initialises `i1 = i2 = i3 = None`, sets
`i1 = r[0].preference` for MX, and for SRV assigns `r[0].priority`,
`r[0].weight` and `r[0].port` one after the other to `i1` (transcribed
as the shadowing lets below). -/
def add_to_rrset_args (zone : Str) (r : WireRR) (r0 : RData) : SqlAddArgs :=
  let dns_name := omit_final_dot r.name
  let i1 : Option Nat := none
  let i2 : Option Nat := none
  let i3 : Option Nat := none
  let (i1, i2, i3) :=
    match r.rdtype, r0 with
    | .MX, .mx preference _ => (some preference, i2, i3)
    | .SRV, .srv priority weight port _ =>
      let i1 := some priority
      let i1 := some weight
      let i1 := some port
      (i1, i2, i3)
    | _, _ => (i1, i2, i3)
  { zone, dns_name, rtype := r.rdtype, ttl := r.ttl, i1, i2, i3,
    rdata := get_data r0 }

end SQLBackend

/-! ## HTTP front-end: duppy/http_frontend.py -/

namespace HttpFrontend

open Records

/-- The JSON bodies the HTTP front-end responds with: on success
`_do_updates` returns the `updates` list itself for `json_response`;
handled errors become `{'error': str(e)}`; the bare `except` clause of
`update_handler` answers `{'error': True}`. -/
inductive HttpBody
  | updates_list (updates : List JsonUpd)
  | error_msg (msg : String)
  | error_true
  deriving DecidableEq, Repr

/-- Parse every update object (the list comprehension of
`_do_updates`), stopping at the first exception. -/
def rrsets_from_json : List JsonUpd → Except PyExc (List WireRR)
  | [] => .ok []
  | u :: rest =>
    match rrset_from_json u with
    | .error e => .error e
    | .ok r =>
      match rrsets_from_json rest with
      | .error e => .error e
      | .ok rs => .ok (r :: rs)

/-- `HttpFrontend._do_updates` (http_frontend.py lines 137-150): parse,
validate, run `backend.update`, and answer `(200, 'OK', updates)`; only
`KeyError` and `ValueError` are converted to a 400 response, every other
exception propagates to the caller.  `engine_ok` stands for
`backend.update` returning normally (a failing engine raises).  The
`Bool` of the result records whether `backend.update` ran, i.e. whether
any persisted change could have happened. -/
def do_updates (minimum_ttl : Nat) (engine_ok : Bool) (zone : Str)
    (updates : Option (List JsonUpd)) :
    Except PyExc (Nat × String × HttpBody) × Bool :=
  match updates with
  | none => (.ok (400, "Bad request", .error_msg ("Need a list of updates")), false)
  | some us =>
    if us.isEmpty then
      (.ok (400, "Bad request", .error_msg ("Need a list of updates")), false)
    else
      let zname := dns_name_from_text zone
      let step : Except PyExc (Nat × String × HttpBody) :=
        match rrsets_from_json us with
        | .error e => .error e
        | .ok rrsets =>
          match Records.validate zname minimum_ttl rrsets with
          | .error e => .error e
          | .ok () => .ok (200, "OK", .updates_list us)
      match step with
      | .ok r => (if engine_ok then (.ok r, true) else (.error (.exc ("Internal Error")), true))
      | .error (.keyError k) =>
        (.ok (400, "Bad request", .error_msg (exc_text (.keyError k))), false)
      | .error (.valueError m) =>
        (.ok (400, "Bad request", .error_msg m), false)
      | .error e => (.error e, false)

/-- `HttpFrontend.update_handler` (http_frontend.py lines 224-236) after
successful authentication: the `_do_updates` result is returned as is;
`PermissionError` answers 403, `KeyError`/`ValueError` answer 400, and
any other exception falls into the bare `except` clause, which answers
`500 {'error': True}`. -/
def update_handler_result (minimum_ttl : Nat) (engine_ok : Bool) (zone : Str)
    (updates : Option (List JsonUpd)) : (Nat × String × HttpBody) × Bool :=
  match do_updates minimum_ttl engine_ok zone updates with
  | (.ok r, called) => (r, called)
  | (.error (.permissionError m), called) => ((403, "Access denied", .error_msg m), called)
  | (.error (.keyError k), called) =>
    ((400, "Bad request", .error_msg (exc_text (.keyError k))), called)
  | (.error (.valueError m), called) => ((400, "Bad request", .error_msg m), called)
  | (.error _, called) => ((500, "Internal error", .error_true), called)

/-- The relevant query parameters of `GET /v1/simple`; `none` models an
absent parameter and `offline` the truthiness of
`request.query.get('offline')`. -/
structure SimpleQuery where
  myip : Option Str := none
  myipv6 : Option Str := none
  hostname : Option Str := none
  ttl : Option Nat := none
  offline : Bool := false
  deriving Repr

/-- One update dict synthesized by `simple_handler` (http_frontend.py
lines 294-299): `{'op': 'add', 'dns_name': ..., 'ttl': ..., 'type': ...,
'data': ...}`. -/
def add_upd (h : Str) (ttl : Nat) (rt : String) (ip : Str) : JsonUpd :=
  { op := "add", dns_name := h, ttl := some ttl, rtype := some rt, data := some ip }

/-- One delete dict synthesized by `simple_handler` (http_frontend.py
lines 301-304): `{'op': 'delete', 'dns_name': ..., 'type': ...}`. -/
def del_upd (h : Str) (rt : String) : JsonUpd :=
  { op := "delete", dns_name := h, rtype := some rt }

/-- The inner loop of the synthesis (http_frontend.py lines 292-304):
one add per address, and when the list for a family is empty one delete
for that record type. -/
def synth_for (h : Str) (ttl : Nat) (rt : String) (ips : List Str) : List JsonUpd :=
  ips.map (fun ip => add_upd h ttl rt ip) ++
    (if ips.isEmpty then [del_upd h rt] else [])

/-- The update synthesis of `simple_handler` (http_frontend.py lines
280-304): `myip` defaults to the literal string `'missing'`, both lists
are comma-split, `:`-containing entries of `myip` are promoted to the
IPv6 list when `myipv6` is absent or starts empty, the IPv4 list keeps
only non-empty `:`-free entries, `ttl` defaults to the front-end's
default TTL, and `offline` clears both lists. -/
def simple_updates (default_ttl : Nat) (q : SimpleQuery) : List JsonUpd :=
  let myips := py_split ',' (q.myip.getD (Str.of ("missing")))
  let myipv6 := py_split ',' (q.myipv6.getD [])
  let myipv6 :=
    if (myipv6.head?.getD []).isEmpty then myips.filter (fun ip => ip.contains ':')
    else myipv6
  let myips := myips.filter (fun ip => !ip.contains ':' && !ip.isEmpty)
  let hostnames := py_split ',' (q.hostname.getD [])
  let ttl := q.ttl.getD default_ttl
  let myips := if q.offline then [] else myips
  let myipv6 := if q.offline then [] else myipv6
  hostnames.flatMap (fun h => synth_for h ttl ("A") myips ++ synth_for h ttl ("AAAA") myipv6)

/-- Iteration order of the keys of a synthesized update dict: the
insertion order of the dict literals of `simple_handler`
(`op`, `dns_name`, `ttl`, `type`, `data`, and the MX/SRV extras for
completeness). -/
def dict_keys (u : JsonUpd) : List String :=
  ["op", "dns_name"] ++
  (if u.ttl.isSome then ["ttl"] else []) ++
  (if u.rtype.isSome then ["type"] else []) ++
  (if u.data.isSome then ["data"] else []) ++
  (if u.priority.isSome then ["priority"] else []) ++
  (if u.weight.isSome then ["weight"] else []) ++
  (if u.port.isSome then ["port"] else [])

/-- Python tuple unpacking `status, op = d` where `d` is iterated: it
succeeds only when the iterable yields exactly two elements. -/
def iter_unpack2 (keys : List String) : Except PyExc (String × String) :=
  match keys with
  | [a, b] => .ok (a, b)
  | _ :: _ :: _ :: _ => .error (.valueError ("too many values to unpack (expected 2)"))
  | _ => .error (.valueError ("not enough values to unpack (expected 2, got " ++
      Nat.repr keys.length ++ ")"))

/-- The success-body loop of `simple_handler` (http_frontend.py lines
315-323): `for status, op in j` iterates the elements of `j` — here
dicts, whose iteration yields their keys — and unpacks each into two
variables.  A dict with two keys would bind `status` to a key string,
which is never equal to `'ok'`, so the `if` body (which would index a
string and raise `TypeError`) is skipped. -/
def simple_good_loop : List JsonUpd → Except PyExc (List String)
  | [] => .ok []
  | d :: rest =>
    match iter_unpack2 (dict_keys d) with
    | .error e => .error e
    | .ok (status, _) =>
      if status = "ok" then .error (.typeError ("string indices must be integers"))
      else simple_good_loop rest

/-- `'\n'.join(responses)`. -/
def join_nl : List String → String
  | [] => ""
  | [x] => x
  | x :: rest => x ++ "\n" ++ join_nl rest

/-- The response assembly of `simple_handler` (http_frontend.py lines
314-331).  This code runs after the `try` block, so an exception here
escapes the handler (the web framework then reports an internal server
error); that escape is the `.error` case. -/
def simple_respond (r : Nat × String × HttpBody) : Except PyExc (Nat × String) :=
  let c := r.1
  if c = 200 then
    match r.2.2 with
    | .updates_list us =>
      match simple_good_loop us with
      | .error e => .error e
      | .ok lines => .ok (c, join_nl lines ++ "\n")
    | _ => .error (.typeError ("cannot unpack non-sequence"))
  else if c = 403 then .ok (c, "badauth" ++ "\n")
  else .ok (c, "911" ++ "\n")

/-- `HttpFrontend.simple_handler` after successful Basic authentication
(http_frontend.py lines 280-333): synthesize the updates, submit them
through `_do_updates` (whose `PermissionError` answers 403 and any other
escaping exception answers 500), then assemble the plain-text
response. -/
def simple_handler_result (minimum_ttl default_ttl : Nat) (engine_ok : Bool)
    (zone : Str) (q : SimpleQuery) : Except PyExc (Nat × String) × Bool :=
  let us := simple_updates default_ttl q
  match do_updates minimum_ttl engine_ok zone (some us) with
  | (.ok r, called) => (simple_respond r, called)
  | (.error (.permissionError m), called) =>
    (simple_respond (403, "Access denied", .error_msg m), called)
  | (.error _, called) =>
    (simple_respond (500, "Internal error", .error_true), called)

end HttpFrontend

/-! ## Concrete fixtures used by the theorems -/

open DnsFrontend Records HttpFrontend SQLBackend

/-- A backend on which every operation succeeds but the commit fails. -/
def commit_fails_oracle : Oracle :=
  { all_ok_oracle with commit_ok := fun _ => false }

/-- A single well-formed A-record addition, as decoded from the wire. -/
def c1_add_rr : WireRR :=
  { name := Str.of ("www.example.org."), rdtype := .A, ttl := 300,
    deleting := none, items := [.a (Str.of ("1.2.3.4"))] }

/-- Recognise rollback calls in a trace. -/
def is_rollback_call : BCall → Bool
  | .transaction_rollback _ _ => true
  | _ => false

/-- Scenario (b) of the spec: an add of `www.example.org` with TTL 60. -/
def c2_upd60 : JsonUpd :=
  { op := "add", dns_name := Str.of ("www.example.org"), rtype := some ("A"),
    ttl := some 60, data := some (Str.of ("1.2.3.4")) }

/-- An SRV update object as documented in §4.1. -/
def c3_srv_json : JsonUpd :=
  { op := "add", dns_name := Str.of ("sip.example.org"), rtype := some ("SRV"),
    ttl := some 300, data := some (Str.of ("sipserver.example.org")),
    priority := some 10, weight := some 20, port := some 8080 }

/-- A TXT update object as documented in §4.1. -/
def c3_txt_json : JsonUpd :=
  { op := "add", dns_name := Str.of ("txt.example.org"), rtype := some ("TXT"),
    ttl := some 300, data := some (Str.of ("hello")) }

/-- A zone row exactly as `SQLBackend.get_all_zones` builds it. -/
def c6_sql_row : ZoneInfo :=
  sql_zone_row (Str.of ("example.org")) (Str.of ("ns1.example.org")) ("SOA") 300 7

/-- A zone dict carrying the `name` key the front-end reads (the shape
the in-memory example backend returns). -/
def c6_mock_row : ZoneInfo :=
  { name := some (Str.of ("example.org")),
    hostname := some (Str.of ("example.org")) }

/-- Scenario (c) of the spec:
`?hostname=h.example.org&myip=1.2.3.4,2001:db8::1`. -/
def c7_query : SimpleQuery :=
  { myip := some (Str.of ("1.2.3.4,2001:db8::1")),
    hostname := some (Str.of ("h.example.org")) }

/-- An SRV RRset with priority 10, weight 20 and port 8080. -/
def c9_srv_rr : WireRR :=
  { name := Str.of ("_sip._tcp.example.org."), rdtype := .SRV, ttl := 300,
    deleting := none, items := [.srv 10 20 8080 (Str.of ("sipserver.example.org."))] }

/-- A wire-form `DeleteAllRRsets` (class ANY, type ANY, TTL 0, empty
rdata) aimed at the zone apex `example.org`. -/
def c8_apex_rr : WireRR :=
  { name := Str.of ("example.org."), rdtype := .ANY, ttl := 0,
    deleting := some .ANY, items := [] }

/-- A wire-form `DeleteAllRRsets` aimed at a host below the apex. -/
def c5_delete_all_rr : WireRR :=
  { name := Str.of ("old.example.org."), rdtype := .ANY, ttl := 0,
    deleting := some .ANY, items := [] }

/-! ## Spec-side engine description (refinement target for C4)

These definitions follow the words of spec §4.3 ("for each op in input
order ... on first failure break", "count `changes++` on success", "if
`changes > 0` call `notify_changed` and fold its result into the success
flag", "if the success flag still holds, commit ... otherwise rollback
with `silent = (changes == 0)`"); the theorem for C4 compares them with
the code-derived executor. -/

/-- Spec §4.3 step 3: the operations the engine attempts — the
client-supplied order, up to and including the first failing one; no
reordering. -/
def spec_attempted (O : Oracle) (zone : Str) : List Item → List Item
  | [] => []
  | it :: rest =>
    it :: (if (step_call O zone it).2 then spec_attempted O zone rest else [])

/-- Spec §4.3 step 3: `changes`, the number of operations that
succeeded — the length of the longest all-successful prefix, since the
loop breaks at the first failure. -/
def spec_changes (O : Oracle) (zone : Str) (items : List Item) : Nat :=
  (items.takeWhile (fun it => (step_call O zone it).2)).length

/-- Spec §4.3 steps 3-4: the success flag that gates the commit — the
loop flag (initially false, then the conjunction of the call results)
ANDed with `notify_changed`'s result when `changes > 0`. -/
def spec_ok_final (O : Oracle) (zone : Str) (items : List Item) : Bool :=
  let ok := if items.isEmpty then false
            else items.all (fun it => (step_call O zone it).2)
  if spec_changes O zone items ≠ 0 then O.notify_ok zone && ok else ok

/-- Spec §4.3, the whole engine run: the attempted calls in order, then
`notify_changed` exactly when `changes > 0`, then a commit gated by the
folded success flag, otherwise a rollback with
`silent = (changes == 0)`. -/
def spec_run (O : Oracle) (zone : Str) (items : List Item) : Rcode × List BCall :=
  let ok := if items.isEmpty then false else items.all (fun it => (step_call O zone it).2)
  let changes := spec_changes O zone items
  let trace := (spec_attempted O zone items).filterMap (fun it => (step_call O zone it).1)
  let ok2 := if changes ≠ 0 then O.notify_ok zone && ok else ok
  let trace2 := if changes ≠ 0 then trace ++ [BCall.notify_changed zone] else trace
  if ok2 then
    ((if O.commit_ok zone then Rcode.NOERROR else Rcode.SERVFAIL),
     BCall.transaction_start zone :: trace2 ++ [BCall.transaction_commit zone])
  else
    (Rcode.SERVFAIL,
     BCall.transaction_start zone :: trace2 ++
       [BCall.transaction_rollback zone (changes == 0)])

/-- The backend calls the execution loop can emit: only the four RRset
mutations (never transaction control or notification calls). -/
def is_mutation_call : BCall → Bool
  | .add_to_rrset _ _ _ _ _ _ _ _ => true
  | .delete_all_rrsets _ _ => true
  | .delete_rrset _ _ _ => true
  | .delete_from_rrset _ _ _ _ => true
  | _ => false

/-! ## Claim theorems -/

/-- The execution loop, characterised: the final flag is false for an
empty batch and otherwise the conjunction of the call results; the
change count adds the successful prefix length; the trace extends by the
calls of the attempted operations, in order. -/
theorem exec_ops_eq (O : Oracle) (zone : Str) :
    ∀ (items : List Item) (ok : Bool) (changes : Nat) (trace : List BCall),
      exec_ops O zone ok changes trace items =
        ((if items.isEmpty then ok else items.all (fun it => (step_call O zone it).2)),
         changes + spec_changes O zone items,
         trace ++ (spec_attempted O zone items).filterMap
           (fun it => (step_call O zone it).1)) := by
  intro items
  induction items with
  | nil =>
    intro ok changes trace
    simp [exec_ops, spec_changes, spec_attempted]
  | cons it rest ih =>
    intro ok changes trace
    rcases hsc : step_call O zone it with ⟨call, okc⟩
    cases okc with
    | false =>
      simp [exec_ops, hsc, spec_changes, spec_attempted, List.takeWhile_cons,
        List.filterMap_cons]
      cases call <;> simp
    | true =>
      simp [exec_ops, hsc, ih, spec_changes, spec_attempted, List.takeWhile_cons,
        List.append_assoc, List.filterMap_cons]
      refine ⟨?_, ?_, ?_⟩
      · intro h
        subst h
        intro a a1 a2 a3 b hmem
        exact absurd hmem (List.not_mem_nil _)
      · omega
      · cases call <;> simp

/-- Every call the per-record dispatch emits is one of the four RRset
mutations. -/
theorem step_call_fst_mutation (O : Oracle) (zone : Str) (it : Item) (c : BCall)
    (h : (step_call O zone it).1 = some c) : is_mutation_call c = true := by
  rcases it with ⟨upd, p1, p2, p3, d⟩
  cases hdel : upd.deleting with
  | none =>
    simp [step_call, hdel] at h
    subst h; rfl
  | some dc =>
    cases dc with
    | IN => simp [step_call, hdel] at h
    | NONE =>
      simp [step_call, hdel] at h
      subst h; rfl
    | ANY =>
      by_cases hty : upd.rdtype = .ANY
      · simp [step_call, hdel, hty] at h
        subst h; rfl
      · simp [step_call, hdel, hty] at h
        subst h; rfl

/-- Transaction-control and notification calls never appear among the
dispatched mutation calls. -/
theorem mutation_not_mem (O : Oracle) (zone : Str) (l : List Item) (c : BCall)
    (hc : is_mutation_call c = false) :
    c ∉ l.filterMap (fun it => (step_call O zone it).1) := by
  intro hmem
  obtain ⟨it, _, hf⟩ := List.mem_filterMap.mp hmem
  have := step_call_fst_mutation O zone it c hf
  rw [this] at hc
  cases hc

/-- C4: the DNS front-end execution pipeline refines the spec §4.3
engine: it equals `spec_run` — the client-ordered attempted calls
stopping at the first failure, `notify_changed` appended exactly when at
least one op succeeded, and commit gated by the AND-folded flag.  In
addition, the trace contains `notify_changed` exactly once iff
`changes > 0`, and contains `transaction_commit` iff the folded success
flag holds. -/
theorem C4_engine_refines_spec (O : Oracle) (zone_text : Str) (items : List Item) :
    run_update_section O zone_text items = spec_run O (norm_name zone_text) items ∧
    (run_update_section O zone_text items).2.count
        (BCall.notify_changed (norm_name zone_text)) =
      (if 0 < spec_changes O (norm_name zone_text) items then 1 else 0) ∧
    (BCall.transaction_commit (norm_name zone_text) ∈ (run_update_section O zone_text items).2 ↔
      spec_ok_final O (norm_name zone_text) items = true) := by
  have h1 : run_update_section O zone_text items = spec_run O (norm_name zone_text) items := by
    simp only [run_update_section, spec_run, exec_ops_eq, Nat.zero_add, List.nil_append]
  have hnm : BCall.notify_changed (norm_name zone_text) ∉
      (spec_attempted O (norm_name zone_text) items).filterMap
        (fun it => (step_call O (norm_name zone_text) it).1) :=
    mutation_not_mem O (norm_name zone_text) _ _ rfl
  have hcm : BCall.transaction_commit (norm_name zone_text) ∉
      (spec_attempted O (norm_name zone_text) items).filterMap
        (fun it => (step_call O (norm_name zone_text) it).1) :=
    mutation_not_mem O (norm_name zone_text) _ _ rfl
  refine ⟨h1, ?_, ?_⟩
  · rw [h1]
    simp only [spec_run]
    by_cases hch : spec_changes O (norm_name zone_text) items = 0
    · rw [if_neg (show ¬0 < spec_changes O (norm_name zone_text) items by omega)]
      repeat' split
      all_goals first
        | omega
        | simp [List.count_cons, List.count_append, List.count_eq_zero.mpr hnm]
    · rw [if_pos (Nat.pos_of_ne_zero hch)]
      repeat' split
      all_goals first
        | omega
        | simp [List.count_cons, List.count_append, List.count_eq_zero.mpr hnm]
  · rw [h1]
    simp only [spec_run, spec_ok_final]
    repeat' split
    all_goals first
      | omega
      | simp [hcm, *]

/-- C1: the claim states that when every operation succeeded but
`transaction_commit` fails, the DNS front-end answers SERVFAIL *and
still rolls the transaction back*.  The code answers SERVFAIL, but it
clears the transaction handle after the commit attempt regardless of the
commit result (dns_frontend.py line 197 sits outside the inner
`if`/`else`), so the `finally` block never calls
`transaction_rollback`: the trace of this run ends with the failed
commit and contains no rollback call. -/
theorem C1_commit_failure_skips_rollback :
    handle_update_section commit_fails_oracle 120 (Str.of ("example.org.")) [c1_add_rr] =
      (Rcode.SERVFAIL,
       [BCall.transaction_start (Str.of ("example.org")),
        BCall.add_to_rrset (Str.of ("example.org")) (Str.of ("www.example.org"))
          .A 300 0 0 0 (.s (Str.of ("1.2.3.4"))),
        BCall.notify_changed (Str.of ("example.org")),
        BCall.transaction_commit (Str.of ("example.org"))]) ∧
    ((handle_update_section commit_fails_oracle 120 (Str.of ("example.org."))
        [c1_add_rr]).2.all (fun c => !is_rollback_call c)) = true := by
  decide

/-- C2: the claim states that an authenticated `POST /v1/update` whose
updates contain an add with TTL 60 (floor 120) is answered with
HTTP 400 and body `{"error": "TTL is too low, 60 < 120"}`.  On the
`HttpFrontend` path cited, `records.validate` raises a plain
`Exception('TTL too low: 60 < 120')`, which `_do_updates` (catching only
`KeyError` and `ValueError`) does not convert to a 400, so the bare
`except` clause of `update_handler` answers `500 {'error': True}`.  No
backend update runs (the `false` component), so the no-persisted-change
part of the claim does hold. -/
theorem C2_low_ttl_yields_500_error_true :
    update_handler_result 120 true (Str.of ("example.org")) (some [c2_upd60]) =
      ((500, "Internal error", HttpBody.error_true), false) ∧
    (do_updates 120 true (Str.of ("example.org")) (some [c2_upd60])).1 =
      .error (.exc ("TTL too low: 60 < 120")) := by
  decide

/-- C3: the claim states the JSON codec handles every supported type
(A, AAAA, CNAME, MX, SRV, TXT).  The registration table of records.py
maps `(IN, SRV)` to the `SOA` codec class — so decoding a §4.1 SRV
object fails with `KeyError('mname')` — and has no `(IN, TXT)` entry, so
decoding a TXT object falls back to the stock dnspython class, which has
no `from_json`, raising `AttributeError`. -/
theorem C3_codec_table_srv_txt_broken :
    rdata_classes .IN .SRV = some CodecClass.SOA ∧
    rdata_classes .IN .TXT = none ∧
    rdata_from_json .IN .SRV c3_srv_json = .error (.keyError ("mname")) ∧
    rdata_from_json .IN .TXT c3_txt_json = .error (.attributeError ("from_json")) := by
  decide

/-- C6: the claim states that a single-question SOA query for a name
inside a zone returned by `get_all_zones` is answered with an
authoritative SOA, and with NXDOMAIN otherwise.  The rows built by
`SQLBackend.get_all_zones` carry the key `zone`, but the front-end reads
`zone["name"]` (dns_frontend.py line 62), so the handler raises
`KeyError('name')` and the bare `except` clause answers SERVFAIL — never
the SOA answer or NXDOMAIN.  A zone dict that does carry `name` (the
in-memory example backend's shape) produces the intended authoritative
answer. -/
theorem C6_sql_zone_soa_query_servfail :
    handle_soa_query 300 is_in_zone (Str.of ("www.example.org.")) [c6_sql_row] =
      .rcode .SERVFAIL ∧
    soa_query_loop 300 is_in_zone (Str.of ("www.example.org.")) [c6_sql_row] =
      .error (.keyError ("name")) ∧
    handle_soa_query 300 is_in_zone (Str.of ("www.example.org.")) [c6_mock_row] =
      .answer true (Str.of ("example.org")) 0 300 := by
  decide

/-- C7: the claim states that a successful `GET /v1/simple` request with
`hostname=h.example.org&myip=1.2.3.4,2001:db8::1` is answered 200 with
body `good 1.2.3.4,2001:db8::1`.  The synthesis does produce the A and
AAAA adds and the engine runs them (the `true` component — the records
are persisted), but `HttpFrontend._do_updates` returns the raw `updates`
list while `simple_handler` unpacks `for status, op in j`; iterating a
five-key dict yields five keys, so the unpacking raises
`ValueError('too many values to unpack (expected 2)')` outside the
`try` block and the handler never returns the `good` body. -/
theorem C7_simple_success_response_unpack_error :
    simple_updates 300 c7_query =
      [add_upd (Str.of ("h.example.org")) 300 ("A") (Str.of ("1.2.3.4")),
       add_upd (Str.of ("h.example.org")) 300 ("AAAA") (Str.of ("2001:db8::1"))] ∧
    simple_handler_result 120 300 true (Str.of ("example.org")) c7_query =
      (.error (.valueError ("too many values to unpack (expected 2)")), true) := by
  decide

/-- C9: the claim states that for an accepted SRV add the backend add
call receives `i1 = priority`, `i2 = weight`, `i3 = port`.  In
`SQLBackend.add_to_rrset` the three assignments all target `i1`
(backends.py lines 276-278), so the SQL statement receives `i1 = port`
and `i2 = i3 = NULL`.  The DNS front-end's own unpacking
(`extract_data`) does produce priority/weight/port in order, which is
what the claim and the spec intend. -/
theorem C9_srv_add_binds_port_to_i1 :
    (add_to_rrset_args (Str.of ("example.org")) c9_srv_rr
      (RData.srv 10 20 8080 (Str.of ("sipserver.example.org.")))).i1 = some 8080 ∧
    (add_to_rrset_args (Str.of ("example.org")) c9_srv_rr
      (RData.srv 10 20 8080 (Str.of ("sipserver.example.org.")))).i2 = none ∧
    (add_to_rrset_args (Str.of ("example.org")) c9_srv_rr
      (RData.srv 10 20 8080 (Str.of ("sipserver.example.org.")))).i3 = none ∧
    extract_data c9_srv_rr = .ok (10, 20, 8080, .s (Str.of ("sipserver.example.org."))) := by
  decide

/-- C5: the RFC 2136 section 2.5 mapping.  For any record accepted by
the validation loop: class `ANY` with type `ANY` dispatches to
`delete_all_rrsets(zone, name)`, class `ANY` with a concrete type to
`delete_rrset(zone, name, T)`, class `NONE` to
`delete_from_rrset(zone, name, T, rdata)`, and class `IN` (no `deleting`
marker) to `add_to_rrset(zone, name, T, ttl, ...)`; validation further
guarantees TTL 0 for the deleting rows and `ttl ≥ minimum_ttl` for the
add row. -/
theorem C5_rfc2136_section25_mapping (O : Oracle) (zone : Str) (minimum_ttl : Nat)
    (upd : WireRR) (p1 p2 p3 : Nat) (data : UData)
    (hv : validate_rr zone minimum_ttl upd = .ok (p1, p2, p3, data)) :
    (upd.deleting = some .ANY → upd.rdtype = .ANY →
      upd.ttl = 0 ∧
      step_call O (norm_name zone) (upd, p1, p2, p3, data) =
        (some (.delete_all_rrsets (norm_name zone) (norm_name upd.name)),
         O.delete_all_ok (norm_name zone) (norm_name upd.name))) ∧
    (upd.deleting = some .ANY → upd.rdtype ≠ .ANY →
      upd.ttl = 0 ∧
      step_call O (norm_name zone) (upd, p1, p2, p3, data) =
        (some (.delete_rrset (norm_name zone) (norm_name upd.name) upd.rdtype),
         O.delete_rrset_ok (norm_name zone) (norm_name upd.name) upd.rdtype)) ∧
    (upd.deleting = some .NONE →
      upd.ttl = 0 ∧
      step_call O (norm_name zone) (upd, p1, p2, p3, data) =
        (some (.delete_from_rrset (norm_name zone) (norm_name upd.name) upd.rdtype data),
         O.delete_from_ok (norm_name zone) (norm_name upd.name) upd.rdtype data)) ∧
    (upd.deleting = none →
      minimum_ttl ≤ upd.ttl ∧
      step_call O (norm_name zone) (upd, p1, p2, p3, data) =
        (some (.add_to_rrset (norm_name zone) (norm_name upd.name) upd.rdtype upd.ttl
           p1 p2 p3 data),
         O.add_ok (norm_name zone) (norm_name upd.name) upd.rdtype upd.ttl p1 p2 p3 data)) := by
  have hsplit : (upd.deleting ≠ none → upd.ttl = 0) ∧
      (upd.deleting = none → minimum_ttl ≤ upd.ttl) := by
    unfold validate_rr at hv
    split at hv
    · exact absurd hv (by simp)
    · split at hv
      · exact absurd hv (by simp)
      · next h2 =>
        split at hv
        · exact absurd hv (by simp)
        · next h3 =>
          constructor
          · intro hd
            rcases not_and_or.mp h3 with h | h
            · exact absurd hd (not_not.mp (by simpa using h))
            · exact not_not.mp h
          · intro hd
            rcases not_and_or.mp h2 with h | h
            · exact absurd hd h
            · exact Nat.not_lt.mp h
  obtain ⟨hdel0, hmin⟩ := hsplit
  refine ⟨?_, ?_, ?_, ?_⟩
  · intro hd hty
    refine ⟨hdel0 (by simp [hd]), ?_⟩
    simp [step_call, hd, hty]
  · intro hd hty
    refine ⟨hdel0 (by simp [hd]), ?_⟩
    simp [step_call, hd, hty]
  · intro hd
    refine ⟨hdel0 (by simp [hd]), ?_⟩
    simp [step_call, hd]
  · intro hd
    exact ⟨hmin hd, by simp [step_call, hd]⟩

/-- C5, witnessed at a concrete input: a wire record of class `ANY`,
type `ANY`, TTL 0 and empty rdata at `old.example.org` passes validation
and dispatches to `delete_all_rrsets`. -/
theorem C5_rfc2136_section25_mapping_witness :
    validate_rr (Str.of ("example.org.")) 120 c5_delete_all_rr = .ok (0, 0, 0, .s []) ∧
    (c5_delete_all_rr.ttl = 0 ∧
     step_call all_ok_oracle (norm_name (Str.of ("example.org.")))
        (c5_delete_all_rr, 0, 0, 0, .s []) =
       (some (.delete_all_rrsets (norm_name (Str.of ("example.org.")))
          (norm_name c5_delete_all_rr.name)),
        all_ok_oracle.delete_all_ok (norm_name (Str.of ("example.org.")))
          (norm_name c5_delete_all_rr.name))) :=
  ⟨by decide,
   (C5_rfc2136_section25_mapping all_ok_oracle (Str.of ("example.org.")) 120
      c5_delete_all_rr 0 0 0 (.s []) (by decide)).1 rfl rfl⟩

/-- If any record of the list fails the validation loop, the whole
`validate_all` fails. -/
theorem validate_all_error_of_mem (zone : Str) (m : Nat) (updates : List WireRR)
    (upd : WireRR) (hmem : upd ∈ updates) (e : Reject)
    (he : validate_rr zone m upd = .error e) :
    ∃ e', validate_all zone m updates = .error e' := by
  induction updates with
  | nil => cases hmem
  | cons x rest ih =>
    rcases List.mem_cons.mp hmem with h | h
    · subst h
      exact ⟨e, by simp [validate_all, he]⟩
    · cases hx : validate_rr zone m x with
      | error e2 => exact ⟨e2, by simp [validate_all, hx]⟩
      | ok v =>
        obtain ⟨a, b, c, d⟩ := v
        obtain ⟨e', he'⟩ := ih h
        exact ⟨e', by simp [validate_all, hx, he']⟩

/-- When every record before a failing one validates, `validate_all`
propagates exactly the failing record's error. -/
theorem validate_all_append_reaches (zone : Str) (m : Nat) (pre post : List WireRR)
    (upd : WireRR) (e : Reject) (he : validate_rr zone m upd = .error e)
    (hpre : ∀ x ∈ pre, ∃ v, validate_rr zone m x = .ok v) :
    validate_all zone m (pre ++ upd :: post) = .error e := by
  induction pre with
  | nil => simp [validate_all, he]
  | cons x rest ih =>
    obtain ⟨v, hx⟩ := hpre x (List.mem_cons_self x rest)
    obtain ⟨a, b, c, d⟩ := v
    have hrec := ih (fun y hy => hpre y (List.mem_cons_of_mem x hy))
    simp [validate_all, hx, hrec]

/-- C8: a wire-form `DeleteAllRRsets` (class `ANY`, type `ANY`, TTL 0,
empty rdata) whose name equals the zone apex is rejected by the
validation loop with `UpdateRejected`; any request containing it
performs no backend call at all (the trace is empty — validation runs
before `transaction_start`), and when the records before it validate,
the response code is `NOTIMP`. -/
theorem C8_apex_delete_refused (O : Oracle) (minimum_ttl : Nat) (zone : Str)
    (updates : List WireRR) (upd : WireRR)
    (hdel : upd.deleting = some .ANY) (hty : upd.rdtype = .ANY)
    (httl : upd.ttl = 0) (hitems : upd.items = []) (hapex : upd.name = zone) :
    validate_rr zone minimum_ttl upd =
      .error (.updateRejected ("Refused to delete entire zone: " ++ Str.mk zone)) ∧
    (upd ∈ updates → (handle_update_section O minimum_ttl zone updates).2 = []) ∧
    (∀ pre post, updates = pre ++ upd :: post →
      (∀ x ∈ pre, ∃ v, validate_rr zone minimum_ttl x = .ok v) →
      (handle_update_section O minimum_ttl zone updates).1 = Rcode.NOTIMP) := by
  have hval : validate_rr zone minimum_ttl upd =
      .error (.updateRejected ("Refused to delete entire zone: " ++ Str.mk zone)) := by
    simp [validate_rr, is_in_zone, hdel, hty, httl, hitems, extract_data, hapex]
  refine ⟨hval, ?_, ?_⟩
  · intro hmem
    obtain ⟨e', he'⟩ := validate_all_error_of_mem zone minimum_ttl updates upd hmem _ hval
    unfold handle_update_section
    rw [he']
    cases e' <;> rfl
  · intro pre post heq hpre
    subst heq
    have hv := validate_all_append_reaches zone minimum_ttl pre post upd _ hval hpre
    unfold handle_update_section
    rw [hv]

/-- C8, witnessed at a concrete input: the apex delete at `example.org`
alone in a request is answered `NOTIMP` with an empty backend trace. -/
theorem C8_apex_delete_refused_witness :
    validate_rr (Str.of ("example.org.")) 120 c8_apex_rr =
      .error (.updateRejected ("Refused to delete entire zone: " ++
        Str.mk (Str.of ("example.org.")))) ∧
    (handle_update_section all_ok_oracle 120 (Str.of ("example.org.")) [c8_apex_rr]).2 = [] ∧
    (handle_update_section all_ok_oracle 120 (Str.of ("example.org.")) [c8_apex_rr]).1 =
      Rcode.NOTIMP := by
  have H := C8_apex_delete_refused all_ok_oracle 120 (Str.of ("example.org.")) [c8_apex_rr]
    c8_apex_rr rfl rfl rfl rfl rfl
  exact ⟨H.1, H.2.1 (List.mem_singleton.mpr rfl),
    H.2.2 [] [] rfl (fun x hx => absurd hx (List.not_mem_nil x))⟩

/-- C10: when the `myip` parameter is absent (and no `myipv6` is given),
`simple_handler` does not treat the IPv4 list as empty: `myip` defaults
to the literal string `'missing'`, so for each hostname the synthesis
emits an add of type A with data `missing` (followed by the AAAA delete
an empty IPv6 list produces) — not the A-type delete an empty list would
produce. -/
theorem C10_missing_myip_synthesizes_add_missing (dt : Nat) (hs : Str) :
    simple_updates dt
      { myip := none, myipv6 := none, hostname := some hs, ttl := none, offline := false } =
    (py_split ',' hs).flatMap (fun h =>
      [add_upd h dt ("A") (Str.of ("missing")), del_upd h ("AAAA")]) := by
  rfl

end Duppy
